import Mathlib

/-!
Shallow embedding of the gruid-sdl driver (sdl.go) for verification.

Modelling conventions:
- Go `int32` and `int` values are modelled as unbounded `Int` (the claims under
  verification stay far away from 32-bit wrap-around).
- Go `float32` scale factors are modelled as exact rationals `ℚ`; the Go
  conversion `int32(f)` of a float to an integer truncates toward zero and is
  modelled by `ratTrunc`.  The epsilon literal `0.1` is modelled as `1/10`.
- External SDL resources (window, renderer, textures, the SDL subsystem) are
  modelled by fields of the driver state plus an effect trace: each native
  call the Go code makes is recorded as an `Ev` event.  External calls that
  can only fail inside the SDL library (renderer.SetScale, image conversion,
  texture upload) are modelled as succeeding.
- `gruid.Cell` is an opaque comparable value key (rune + style); equality is
  value equality.  Images returned by the tile manager are opaque handles.
- Go channels: `actions` (capacity 4, non-blocking send, drop on full) is a
  FIFO list of at most 4 queued actions; `reqredraw` (capacity 1,
  non-blocking send) is a boolean flag.
- The Go value `dr.mousedrag = -1` (no active drag) is `none`;
  `gruid.MouseAction` constants are the constructors of `MouseAction`.
-/

namespace GruidSdl

/-- Grid point, `gruid.Point` (integer x, y). -/
structure Point where
  x : Int
  y : Int
deriving DecidableEq, Repr

/-- Opaque comparable cell appearance key (`gruid.Cell`: rune plus style). -/
structure Cell where
  rune : Nat
  style : Nat
deriving DecidableEq, Repr

/-- Opaque image handle produced by the tile manager. -/
abbrev Img := Nat

/-- The external tile-image provider (`TileManager` interface):
`GetImage` returns the image for a cell (or none, modelling a nil image),
`TileSize` returns tile pixel dimensions. -/
structure TileManager where
  getImage : Cell → Option Img
  tileSize : Point

/-- Values of `gruid.MouseAction` used by the driver. -/
inductive MouseAction where
  | main
  | auxiliary
  | secondary
  | release
  | move
deriving DecidableEq, Repr

/-- SDL mouse button of a button event (other = any unhandled button). -/
inductive Button where
  | left
  | middle
  | right
  | other
deriving DecidableEq, Repr

/-- SDL mouse button event type. -/
inductive BtnType where
  | down
  | up
deriving DecidableEq, Repr

/-- The three closures the driver ever enqueues on the action channel,
with their captured arguments (SetTileManager, setScale, window.SetTitle). -/
inductive ActionK where
  | setTM (tm : TileManager)
  | setScale (sx sy : ℚ)
  | setTitle (s : String)

/-- Native-effect events recorded in traces (calls into SDL). -/
inductive Ev where
  | windowSetSize (w h : Int)
  | rendererSetScale (sx sy : ℚ)
  | windowSetTitle (s : String)
  | getImage (c : Cell)
  | createTexture (t : Nat)
  | destroyTexture (t : Nat)
  | copy (t : Nat) (x y w h : Int)
  | present
  | stopTextInput
  | rendererDestroy
  | windowDestroy
  | sdlQuit
deriving DecidableEq, Repr

/-- The driver state (struct `Driver` in sdl.go), together with the
observable state of the native resources it owns.  `windowW`/`windowH`
mirror the native window pixel size set through `window.SetSize`;
`rendererAlive`/`windowAlive`/`sdlAlive` mirror whether the renderer, the
window and the SDL subsystem have been destroyed; `nextTex` is the
allocator for fresh texture handles.  The Go map field `textures` can be
nil (the zero value, and again after `dr.textures = nil` in Close):
`texturesNil` records that nil-ness, which matters because writing into a
nil Go map panics while reading from one merely misses. -/
structure Driver where
  tm : TileManager
  width : Int
  height : Int
  fullscreen : Bool
  tw : Int
  th : Int
  windowW : Int
  windowH : Int
  textures : List (Cell × Nat)
  texturesNil : Bool
  nextTex : Nat
  mousepos : Point
  mousedrag : Option MouseAction
  init : Bool
  reqredraw : Bool
  noQuit : Bool
  actions : List ActionK
  accelerated : Bool
  scaleX : ℚ
  scaleY : ℚ
  title : String
  rendererAlive : Bool
  windowAlive : Bool
  sdlAlive : Bool

/-- Truncation toward zero of a rational, the semantics of the Go
`int32(f)` conversion from a float. -/
def ratTrunc (q : ℚ) : Int :=
  q.num.tdiv (q.den : Int)

/-- The `0.1` epsilon literal of the scale checks (`mkRat 1 10 = 1/10`). -/
def eps : ℚ := mkRat 1 10

/-- Association-list lookup in the texture cache (Go map indexing). -/
def findTex : List (Cell × Nat) → Cell → Option Nat
  | [], _ => none
  | e :: rest, c => if e.1 = c then some e.2 else findTex rest c

/-- Non-blocking send on the 4-slot `actions` channel: append when there is
room, silently drop otherwise. -/
def enqueue (q : List ActionK) (a : ActionK) : List ActionK :=
  if q.length < 4 then q ++ [a] else q

/-- The out-of-grid-bounds test used by the mouse event handlers
(`msg.P.X < 0 || msg.P.X >= int(dr.width) || msg.P.Y < 0 || msg.P.Y >= int(dr.height)`). -/
def oob (dr : Driver) (p : Point) : Bool :=
  p.x < 0 || p.x ≥ dr.width || p.y < 0 || p.y ≥ dr.height

/-- Model of `Driver.coords`: translate a pixel position to a grid point.  When both
scale factors exceed the epsilon, each coordinate is first divided by its
scale factor (float division then truncating conversion to int); then one
pixel is subtracted and the result integer-divided (Go truncated division)
by the tile dimensions. -/
def coords (dr : Driver) (x y : Int) : Point :=
  if dr.scaleX > eps ∧ dr.scaleY > eps then
    ⟨((ratTrunc ((x : ℚ) / dr.scaleX)) - 1).tdiv dr.tw,
     ((ratTrunc ((y : ℚ) / dr.scaleY)) - 1).tdiv dr.th⟩
  else
    ⟨(x - 1).tdiv dr.tw, (y - 1).tdiv dr.th⟩

/-- Model of `Driver.resizeWindow`: set the native window size to grid size times
tile size, scaled by the scale factors when both exceed the epsilon
(`int32(float32(dr.width*dr.tw)*dr.scaleX)` truncates toward zero). -/
def resizeWindow (dr : Driver) : Driver × List Ev :=
  if dr.scaleX > eps ∧ dr.scaleY > eps then
    let w := ratTrunc (((dr.width * dr.tw : Int) : ℚ) * dr.scaleX)
    let h := ratTrunc (((dr.height * dr.th : Int) : ℚ) * dr.scaleY)
    ({ dr with windowW := w, windowH := h }, [Ev.windowSetSize w h])
  else
    ({ dr with windowW := dr.width * dr.tw, windowH := dr.height * dr.th },
     [Ev.windowSetSize (dr.width * dr.tw) (dr.height * dr.th)])

/-- Model of `Driver.setScale` (private): apply the scale to the renderer, record the
factors and resize the window.  The `renderer.SetScale` native call is
modelled as succeeding (its failure path only logs and returns false). -/
def setScale (dr : Driver) (sx sy : ℚ) : Driver × List Ev :=
  let dr1 := { dr with scaleX := sx, scaleY := sy }
  let r := resizeWindow dr1
  (r.1, Ev.rendererSetScale sx sy :: r.2)

/-- Model of `Driver.ClearCache`: destroy every stored texture and empty the cache. -/
def ClearCache (dr : Driver) : Driver × List Ev :=
  ({ dr with textures := [] },
   dr.textures.map (fun e => Ev.destroyTexture e.2))

/-- The body of the closure built by `Driver.SetTileManager`: record the
manager, clamp the tile dimensions to at least 1, and, when the driver is
initialized, clear the texture cache, re-apply or reset the scale, resize
the window and request a redraw (non-blocking send on `reqredraw`). -/
def setTMBody (dr : Driver) (tm' : TileManager) : Driver × List Ev :=
  let p := tm'.tileSize
  let tw := if p.x ≤ 0 then 1 else p.x
  let th := if p.y ≤ 0 then 1 else p.y
  let dr1 := { dr with tm := tm', tw := tw, th := th }
  if dr1.init then
    let r0 := ClearCache dr1
    if r0.1.scaleX > eps ∧ r0.1.scaleY > eps then
      let r1 := setScale r0.1 r0.1.scaleX r0.1.scaleY
      ({ r1.1 with reqredraw := true }, r0.2 ++ r1.2)
    else
      let dr2 := { r0.1 with scaleX := 0, scaleY := 0 }
      let r1 := resizeWindow dr2
      ({ r1.1 with reqredraw := true }, r0.2 ++ r1.2)
  else
    (dr1, [])

/-- Model of `Driver.SetTileManager`: when initialized, enqueue the deferred closure
(non-blocking, dropped when the 4-slot queue is full); otherwise run the
closure immediately. -/
def SetTileManager (dr : Driver) (tm' : TileManager) : Driver × List Ev :=
  if dr.init then
    ({ dr with actions := enqueue dr.actions (ActionK.setTM tm') }, [])
  else
    setTMBody dr tm'

/-- Model of `Driver.SetScale` (public): record the scale factors in the driver
fields; when initialized, additionally enqueue the deferred `setScale`
closure (non-blocking, dropped when full). -/
def SetScale (dr : Driver) (sx sy : ℚ) : Driver × List Ev :=
  let dr := { dr with scaleX := sx, scaleY := sy }
  if dr.init then
    ({ dr with actions := enqueue dr.actions (ActionK.setScale sx sy) }, [])
  else
    (dr, [])

/-- Model of `Driver.SetWindowTitle`: record the title; when initialized,
additionally enqueue the deferred `window.SetTitle` closure. -/
def SetWindowTitle (dr : Driver) (s : String) : Driver × List Ev :=
  let dr := { dr with title := s }
  if dr.init then
    ({ dr with actions := enqueue dr.actions (ActionK.setTitle s) }, [])
  else
    (dr, [])

/-- Model of `Driver.PreventQuit`: make the next Close keep the SDL session alive. -/
def PreventQuit (dr : Driver) : Driver :=
  { dr with noQuit := true }

/-- Run one queued action (the closure bodies of SetTileManager, SetScale
and SetWindowTitle). -/
def runAction (a : ActionK) (dr : Driver) : Driver × List Ev :=
  match a with
  | ActionK.setTM tm' => setTMBody dr tm'
  | ActionK.setScale sx sy => setScale dr sx sy
  | ActionK.setTitle s => (dr, [Ev.windowSetTitle s])

/-- Drain a list of queued actions in FIFO order (the `actions:` loop at
the start of `Driver.Flush`; queued actions never enqueue further actions,
so receiving until the channel is empty is a fold over the queued list). -/
def drainList : List ActionK → Driver → Driver × List Ev
  | [], dr => (dr, [])
  | a :: rest, dr =>
    let r1 := runAction a dr
    let r2 := drainList rest r1.1
    (r2.1, r1.2 ++ r2.2)

/-- Model of `Driver.draw`: look the cell up in the texture cache; on a miss, ask
the tile manager for the image (recorded as a `getImage` event), skip the
draw when it yields none, otherwise upload a fresh texture, store it and
blit; on a hit, blit the cached texture.  The blit rectangle is
`(x*tw, y*th, tw, th)`. -/
def draw (dr : Driver) (cell : Cell) (x y : Int) : Driver × List Ev :=
  match findTex dr.textures cell with
  | some tx =>
    (dr, [Ev.copy tx (x * dr.tw) (y * dr.th) dr.tw dr.th])
  | none =>
    match dr.tm.getImage cell with
    | none => (dr, [Ev.getImage cell])
    | some _ =>
      let tx := dr.nextTex
      ({ dr with textures := dr.textures ++ [(cell, tx)], nextTex := tx + 1 },
       [Ev.getImage cell, Ev.createTexture tx,
        Ev.copy tx (x * dr.tw) (y * dr.th) dr.tw dr.th])

/-- One frame of styled cells (`gruid.Frame`). -/
structure Frame where
  width : Int
  height : Int
  cells : List (Point × Cell)

/-- Draw every cell entry of the frame in order (the range loop of Flush). -/
def drawCells : List (Point × Cell) → Driver → Driver × List Ev
  | [], dr => (dr, [])
  | fc :: rest, dr =>
    let r1 := draw dr fc.2 fc.1.x fc.1.y
    let r2 := drawCells rest r1.1
    (r2.1, r1.2 ++ r2.2)

/-- Model of `Driver.Flush`: drain the action queue, resize the window when the
declared frame dimensions differ from the current driver dimensions,
draw every cell entry, present. -/
def Flush (dr : Driver) (frame : Frame) : Driver × List Ev :=
  let r1 := drainList dr.actions { dr with actions := [] }
  let r2 :=
    if frame.width ≠ r1.1.width ∨ frame.height ≠ r1.1.height then
      resizeWindow { r1.1 with width := frame.width, height := frame.height }
    else
      (r1.1, [])
  let r3 := drawCells frame.cells r2.1
  (r3.1, r1.2 ++ r2.2 ++ r3.2 ++ [Ev.present])

/-- Model of `Driver.Close`: a no-op when not initialized; otherwise clear the
texture cache, set the texture map to nil (`dr.textures = nil`, recorded
by `texturesNil := true` since a later store into the nil map would panic)
and, unless `noQuit` is set, stop text input, destroy the renderer and the
window and quit SDL; `noQuit` is reset in both cases. -/
def Close (dr : Driver) : Driver × List Ev :=
  if dr.init then
    let r1 := ClearCache dr
    let dr1 := { r1.1 with textures := [], texturesNil := true }
    if dr1.noQuit then
      ({ dr1 with noQuit := false }, r1.2)
    else
      ({ dr1 with rendererAlive := false, windowAlive := false,
                  sdlAlive := false, init := false, noQuit := false },
       r1.2 ++ [Ev.stopTextInput, Ev.rendererDestroy, Ev.windowDestroy, Ev.sdlQuit])
  else
    (dr, [])

/-- A mouse message (`gruid.MsgMouse` without the timestamp): action,
grid position and modifier mask.  Modifier decoding from the native
`GetModState` bits is orthogonal to the claims and passed through as an
opaque mask. -/
structure MsgMouse where
  action : MouseAction
  p : Point
  mod : Nat
deriving DecidableEq, Repr

/-- The native mouse button event fields the driver reads. -/
structure MouseButtonEvent where
  button : Button
  btype : BtnType
  x : Int
  y : Int
deriving DecidableEq, Repr

/-- The native mouse motion event fields the driver reads. -/
structure MouseMotionEvent where
  x : Int
  y : Int
deriving DecidableEq, Repr

/-- The button-to-action switch at the top of `pollMouseButtonEvent`
(unhandled buttons return nil immediately). -/
def buttonAction : Button → Option MouseAction
  | Button.left => some MouseAction.main
  | Button.middle => some MouseAction.auxiliary
  | Button.right => some MouseAction.secondary
  | Button.other => none

/-- Model of `Driver.pollMouseButtonEvent`: translate a native mouse button event.
On press: ignored when a drag is active or the translated point is out of
grid bounds; otherwise the button becomes the active drag and a press
message is emitted.  On release: ignored unless the button matches the
active drag; otherwise the drag ends and a release message is emitted,
with the position replaced by the origin point when out of bounds.
`dr.mousepos` is assigned only on the paths that return a message (the
ignored paths return before the assignment). -/
def pollMouseButtonEvent (dr : Driver) (ev : MouseButtonEvent) (m : Nat) :
    Driver × Option MsgMouse :=
  match buttonAction ev.button with
  | none => (dr, none)
  | some action =>
    let p := coords dr ev.x ev.y
    match ev.btype with
    | BtnType.down =>
      if dr.mousedrag ≠ none then (dr, none)
      else if oob dr p then (dr, none)
      else ({ dr with mousedrag := some action, mousepos := p },
            some ⟨action, p, m⟩)
    | BtnType.up =>
      if dr.mousedrag ≠ some action then (dr, none)
      else
        let p := if oob dr p then (⟨0, 0⟩ : Point) else p
        ({ dr with mousedrag := none, mousepos := p },
         some ⟨MouseAction.release, p, m⟩)

/-- Model of `Driver.pollMouseMotionEvent`: emit a move message only when the
translated point differs from the last recorded mouse position and lies
within grid bounds; `dr.mousepos` is assigned only on the emitting path. -/
def pollMouseMotionEvent (dr : Driver) (ev : MouseMotionEvent) (m : Nat) :
    Driver × Option MsgMouse :=
  let p := coords dr ev.x ev.y
  if p = dr.mousepos then (dr, none)
  else if oob dr p then (dr, none)
  else ({ dr with mousepos := p }, some ⟨MouseAction.move, p, m⟩)

/-- Configuration options (`Config`); the tile manager is an interface
value that may be nil (`none`); the window icon is omitted (it only feeds
the external `SetIcon` call). -/
structure Config where
  tileManager : Option TileManager
  width : Int
  height : Int
  fullscreen : Bool
  accelerated : Bool
  windowTitle : String

/-- The Go zero value of the `Driver` struct (all fields zero); the Go
zero value of `gruid.MouseAction` is 0, i.e. `MouseMain`, the zero value
of the `textures` map is nil (hence `texturesNil := true`, until Init runs
`make`), and the nil tile manager slot is filled by the `SetTileManager`
call in `NewDriver` before any use (a nil manager makes `NewDriver` panic,
modelled as `none`). -/
def mkZeroDriver (tm' : TileManager) : Driver :=
  { tm := tm', width := 0, height := 0, fullscreen := false, tw := 0, th := 0,
    windowW := 0, windowH := 0, textures := [], texturesNil := true, nextTex := 0,
    mousepos := ⟨0, 0⟩, mousedrag := some MouseAction.main, init := false,
    reqredraw := false, noQuit := false, actions := [], accelerated := false,
    scaleX := 0, scaleY := 0, title := "", rendererAlive := false,
    windowAlive := false, sdlAlive := false }

/-- Model of `NewDriver`: build a driver from the configuration, defaulting a
non-positive width to 80, a non-positive height to 24 and an empty title
to "gruid go-sdl2", then install the tile manager (a nil manager panics on
`tm.TileSize()`, modelled by returning `none`). -/
def NewDriver (cfg : Config) : Option Driver :=
  match cfg.tileManager with
  | none => none
  | some tm' =>
    let dr := mkZeroDriver tm'
    let dr := { dr with width := if cfg.width ≤ 0 then 80 else cfg.width }
    let dr := { dr with height := if cfg.height ≤ 0 then 24 else cfg.height }
    let dr := { dr with title := if cfg.windowTitle = "" then "gruid go-sdl2"
                                 else cfg.windowTitle }
    let dr := { dr with fullscreen := cfg.fullscreen }
    let r := SetTileManager dr tm'
    some { r.1 with accelerated := cfg.accelerated }

/-! Concrete fixtures used by witnesses and counterexamples. -/

/-- A tile manager that always yields an image, with 16x16 tiles. -/
def tmA : TileManager := ⟨fun _ => some 7, ⟨16, 16⟩⟩

/-- A tile manager whose `GetImage` always yields nil, with 8x8 tiles. -/
def tmNil : TileManager := ⟨fun _ => none, ⟨8, 8⟩⟩

/-- An initialized 10x8-cell driver with 16x16 tiles and unset scale. -/
def drA : Driver :=
  { mkZeroDriver tmA with
    width := 10, height := 8, tw := 16, th := 16, texturesNil := false,
    init := true, mousedrag := none, rendererAlive := true,
    windowAlive := true, sdlAlive := true }

/-! Helper lemmas. -/

/-- Truncation of an integer-valued rational is that integer. -/
theorem ratTrunc_intCast (n : Int) : ratTrunc ((n : Int) : ℚ) = n := by
  simp [ratTrunc]

/-- The epsilon is below 1. -/
theorem eps_lt_one : eps < 1 := by
  norm_num [eps, Rat.mkRat_eq_div]

/-- The epsilon is positive. -/
theorem eps_pos : 0 < eps := by
  norm_num [eps, Rat.mkRat_eq_div]

/-! Claims. -/

/-- C2: with the rendering scale set to exactly 1.0 on both axes, or left
unset (zero), and positive tile dimensions, `Driver.coords` returns
exactly `((px-1)/tw, (py-1)/th)` with Go (truncated) integer division. -/
theorem c2_coords_unit_scale (dr : Driver) (px py : Int)
    (htw : 1 ≤ dr.tw) (hth : 1 ≤ dr.th)
    (hs : (dr.scaleX = 1 ∧ dr.scaleY = 1) ∨ (dr.scaleX = 0 ∧ dr.scaleY = 0)) :
    coords dr px py = ⟨(px - 1).tdiv dr.tw, (py - 1).tdiv dr.th⟩ := by
  rcases hs with ⟨h1, h2⟩ | ⟨h1, h2⟩
  · unfold coords
    rw [h1, h2, if_pos ⟨eps_lt_one, eps_lt_one⟩]
    simp [ratTrunc_intCast]
  · unfold coords
    rw [h1, h2, if_neg]
    intro h
    exact absurd (lt_trans eps_pos h.1) (lt_irrefl 0)

/-- Witness for C2 at a concrete driver with scale 1 and 16x16 tiles. -/
theorem c2_coords_unit_scale_witness :
    1 ≤ drA.tw ∧ 1 ≤ drA.th ∧ drA.scaleX = 0 ∧ drA.scaleY = 0 ∧
      coords drA 17 33 = ⟨1, 2⟩ :=
  ⟨by decide, by decide, rfl, rfl,
   c2_coords_unit_scale drA 17 33 (by decide) (by decide) (Or.inr ⟨rfl, rfl⟩)⟩

/-- A driver whose scale factors are 1/4, grid 7x1, tiles 1x1: here
`width*tw*scaleX = 7/4`, which the code truncates to 1 while rounding to
the nearest integer gives 2. -/
def drQuarter : Driver :=
  { mkZeroDriver tmA with
    width := 7, height := 1, tw := 1, th := 1, texturesNil := false,
    init := true, mousedrag := none, rendererAlive := true,
    windowAlive := true, sdlAlive := true,
    scaleX := mkRat 1 4, scaleY := mkRat 1 4 }

/-- C3, counterexample: at grid width 7, tile width 1 and scale 1/4 (all
exactly representable in float32), `resizeWindow` sets the window width to
`trunc(7*1*(1/4)) = 1`, not to `round(7*1*(1/4)) = 2` as the claim
states. -/
theorem c3_resize_counterexample :
    (resizeWindow drQuarter).1.windowW ≠
      round (((drQuarter.width * drQuarter.tw : Int) : ℚ) * drQuarter.scaleX) ∧
    (resizeWindow drQuarter).1.windowW = 1 ∧
    round (((drQuarter.width * drQuarter.tw : Int) : ℚ) * drQuarter.scaleX) = 2 := by
  have h1 : (resizeWindow drQuarter).1.windowW = 1 := by
    with_unfolding_all decide
  have h2 : round (((drQuarter.width * drQuarter.tw : Int) : ℚ) * drQuarter.scaleX) = 2 := by
    show round (((7 * 1 : Int) : ℚ) * mkRat 1 4) = 2
    rw [Rat.mkRat_eq_div]
    norm_num [round_eq]
  exact ⟨by rw [h1, h2]; decide, h1, h2⟩

/-- C3, amended: the window pixel size computed by `Driver.resizeWindow`
is the product `width*tileWidth*scaleX` truncated toward zero (not rounded
to nearest), with scale factors at or below the epsilon treated as 1.0;
symmetrically for the y axis. -/
theorem c3_resize_truncates (dr : Driver) :
    (dr.scaleX > eps ∧ dr.scaleY > eps →
      (resizeWindow dr).1.windowW = ratTrunc (((dr.width * dr.tw : Int) : ℚ) * dr.scaleX) ∧
      (resizeWindow dr).1.windowH = ratTrunc (((dr.height * dr.th : Int) : ℚ) * dr.scaleY)) ∧
    (¬(dr.scaleX > eps ∧ dr.scaleY > eps) →
      (resizeWindow dr).1.windowW = ratTrunc (((dr.width * dr.tw : Int) : ℚ) * 1) ∧
      (resizeWindow dr).1.windowH = ratTrunc (((dr.height * dr.th : Int) : ℚ) * 1)) := by
  constructor
  · intro h
    unfold resizeWindow
    rw [if_pos h]
    exact ⟨rfl, rfl⟩
  · intro h
    unfold resizeWindow
    rw [if_neg h]
    constructor
    · rw [mul_one, ratTrunc_intCast]
    · rw [mul_one, ratTrunc_intCast]

/-- Witness for C3 at the concrete 1/4-scale driver and at the unset-scale
driver. -/
theorem c3_resize_truncates_witness :
    (drQuarter.scaleX > eps ∧ drQuarter.scaleY > eps) ∧
      (resizeWindow drQuarter).1.windowW =
        ratTrunc (((drQuarter.width * drQuarter.tw : Int) : ℚ) * drQuarter.scaleX) ∧
    ¬(drA.scaleX > eps ∧ drA.scaleY > eps) ∧
      (resizeWindow drA).1.windowW = ratTrunc (((drA.width * drA.tw : Int) : ℚ) * 1) :=
  ⟨⟨by decide, by decide⟩,
   ((c3_resize_truncates drQuarter).1 ⟨by decide, by decide⟩).1,
   fun h => absurd h.1 (by decide),
   ((c3_resize_truncates drA).2 (fun h => absurd h.1 (by decide))).1⟩

/-- C10: `NewDriver` replaces a non-positive width with 80 cells, a
non-positive height with 24 cells, and an empty window title with
"gruid go-sdl2", keeping positive dimensions and non-empty titles
unchanged (given a non-nil tile manager, without which construction
panics). -/
theorem c10_new_driver_defaults (cfg : Config) (t : TileManager)
    (h : cfg.tileManager = some t) :
    ∃ dr, NewDriver cfg = some dr ∧
      (cfg.width ≤ 0 → dr.width = 80) ∧
      (0 < cfg.width → dr.width = cfg.width) ∧
      (cfg.height ≤ 0 → dr.height = 24) ∧
      (0 < cfg.height → dr.height = cfg.height) ∧
      (cfg.windowTitle = "" → dr.title = "gruid go-sdl2") ∧
      (cfg.windowTitle ≠ "" → dr.title = cfg.windowTitle) := by
  unfold NewDriver
  rw [h]
  refine ⟨_, rfl, ?_, ?_, ?_, ?_, ?_, ?_⟩ <;> intro h'
  · simp [SetTileManager, setTMBody, mkZeroDriver, if_pos h']
  · simp [SetTileManager, setTMBody, mkZeroDriver, if_neg (not_le.mpr h')]
  · simp [SetTileManager, setTMBody, mkZeroDriver, if_pos h']
  · simp [SetTileManager, setTMBody, mkZeroDriver, if_neg (not_le.mpr h')]
  · simp [SetTileManager, setTMBody, mkZeroDriver, if_pos h']
  · simp [SetTileManager, setTMBody, mkZeroDriver, if_neg h']

/-- Witness for C10 with width 0, height 5 and an empty title. -/
theorem c10_new_driver_defaults_witness :
    (⟨some tmA, 0, 5, false, false, ""⟩ : Config).tileManager = some tmA ∧
    ∃ dr, NewDriver ⟨some tmA, 0, 5, false, false, ""⟩ = some dr ∧
      dr.width = 80 ∧ dr.height = 5 ∧ dr.title = "gruid go-sdl2" := by
  refine ⟨rfl, ?_⟩
  obtain ⟨dr, hdr, hw, _, _, hh, ht, _⟩ :=
    c10_new_driver_defaults ⟨some tmA, 0, 5, false, false, ""⟩ tmA rfl
  exact ⟨dr, hdr, hw (by decide), hh (by decide), ht rfl⟩

/-- Fixture `drA` with an active main-button drag. -/
def drDrag : Driver := { drA with mousedrag := some MouseAction.main }

/-- C1, counterexample: with a main-button drag active, a release event of
the secondary (right) button leaves the drag state at main — the code
returns before resetting `mousedrag`, so the drag state is not reset to
"none" after a non-matching release as the claim states. -/
theorem c1_release_counterexample :
    (pollMouseButtonEvent drDrag ⟨Button.right, BtnType.up, 50, 50⟩ 0).1.mousedrag
      = some MouseAction.main ∧
    some MouseAction.main ≠ (none : Option MouseAction) := by
  decide

/-- C1, amended: a press while a drag is active produces no message and
leaves the whole state unchanged; a press translating out of grid bounds
produces no message; a release produces a release message exactly when its
button matches the active drag button (position replaced by the origin
point when out of bounds), and resets the drag state to "none" only in
that matching case — a non-matching release leaves the state (drag
included) unchanged. -/
theorem c1_mouse_button_drag (dr : Driver) (ev : MouseButtonEvent) (m : Nat) :
    (ev.btype = BtnType.down → dr.mousedrag ≠ none →
      pollMouseButtonEvent dr ev m = (dr, none)) ∧
    (ev.btype = BtnType.down → oob dr (coords dr ev.x ev.y) = true →
      (pollMouseButtonEvent dr ev m).2 = none) ∧
    (ev.btype = BtnType.up → ∀ a, buttonAction ev.button = some a →
      (dr.mousedrag = some a →
        pollMouseButtonEvent dr ev m =
          ({ dr with mousedrag := none,
                     mousepos := if oob dr (coords dr ev.x ev.y) then ⟨0, 0⟩
                                 else coords dr ev.x ev.y },
           some ⟨MouseAction.release,
                 (if oob dr (coords dr ev.x ev.y) then ⟨0, 0⟩
                  else coords dr ev.x ev.y), m⟩)) ∧
      (dr.mousedrag ≠ some a → pollMouseButtonEvent dr ev m = (dr, none))) ∧
    (ev.btype = BtnType.up → buttonAction ev.button = none →
      pollMouseButtonEvent dr ev m = (dr, none)) := by
  obtain ⟨b, ty, x, y⟩ := ev
  refine ⟨?_, ?_, ?_, ?_⟩
  · intro hty hdrag
    subst hty
    cases hb : buttonAction b with
    | none => simp [pollMouseButtonEvent, hb]
    | some a => simp [pollMouseButtonEvent, hb, hdrag]
  · intro hty hoob
    subst hty
    cases hb : buttonAction b with
    | none => simp [pollMouseButtonEvent, hb]
    | some a =>
      by_cases hdrag : dr.mousedrag = none
      · simp [pollMouseButtonEvent, hb, hdrag, hoob]
      · simp [pollMouseButtonEvent, hb, hdrag]
  · intro hty a ha
    subst hty
    constructor
    · intro hdrag
      simp [pollMouseButtonEvent, ha, hdrag]
    · intro hdrag
      simp [pollMouseButtonEvent, ha, hdrag]
  · intro hty hb
    subst hty
    simp [pollMouseButtonEvent, hb]

/-- Witness for C1: at the concrete dragging driver, a further left-button
press is ignored with the state unchanged, and a matching left-button
release at pixel (50, 50) emits a release message at cell (3, 3) and
resets the drag. -/
theorem c1_mouse_button_drag_witness :
    pollMouseButtonEvent drDrag ⟨Button.left, BtnType.down, 50, 50⟩ 0 = (drDrag, none) ∧
    (pollMouseButtonEvent drDrag ⟨Button.left, BtnType.up, 50, 50⟩ 0).1.mousedrag = none ∧
    (pollMouseButtonEvent drDrag ⟨Button.left, BtnType.up, 50, 50⟩ 0).1.mousepos = ⟨3, 3⟩ ∧
    (pollMouseButtonEvent drDrag ⟨Button.left, BtnType.up, 50, 50⟩ 0).2 =
      some ⟨MouseAction.release, ⟨3, 3⟩, 0⟩ := by
  have h := ((c1_mouse_button_drag drDrag ⟨Button.left, BtnType.up, 50, 50⟩ 0).2.2.1
    rfl MouseAction.main rfl).1 rfl
  refine ⟨(c1_mouse_button_drag drDrag ⟨Button.left, BtnType.down, 50, 50⟩ 0).1
    rfl (by decide), ?_, ?_, ?_⟩ <;> rw [h] <;> decide

/-- A 1x1-cell driver for out-of-bounds motion events. -/
def drM : Driver :=
  { mkZeroDriver tmA with
    width := 1, height := 1, tw := 16, th := 16, texturesNil := false,
    init := true, mousedrag := none, rendererAlive := true,
    windowAlive := true, sdlAlive := true }

/-- C7, counterexample: a motion event whose translated cell (6, 6) lies
outside the 1x1 grid is processed without updating the last-known mouse
position (the code returns before the assignment), contradicting the
claim that every motion event updates it. -/
theorem c7_motion_counterexample :
    (pollMouseMotionEvent drM ⟨100, 100⟩ 0).1.mousepos = drM.mousepos ∧
    (pollMouseMotionEvent drM ⟨100, 100⟩ 0).2 = none ∧
    coords drM 100 100 ≠ drM.mousepos := by
  decide

/-- Function `coords` only reads the scale and tile fields, so updating the mouse
position leaves it unchanged. -/
theorem coords_update_mousepos (dr : Driver) (p : Point) (x y : Int) :
    coords { dr with mousepos := p } x y = coords dr x y := rfl

/-- Function `oob` only reads the grid dimensions, so updating the mouse position
leaves it unchanged. -/
theorem oob_update_mousepos (dr : Driver) (p q : Point) :
    oob { dr with mousepos := p } q = oob dr q := rfl

/-- C7, amended: a motion event produces a move message exactly when its
translated cell differs from the last recorded position and lies within
grid bounds; processing an identical motion event twice yields no second
message; and the last-known mouse position is updated (to the emitted
emitted message position) exactly when a motion or button event produces a
message, being left unchanged otherwise. -/
theorem c7_motion_dedup (dr : Driver) (ev : MouseMotionEvent)
    (ev2 : MouseButtonEvent) (m : Nat) :
    ((pollMouseMotionEvent dr ev m).2.isSome = true ↔
      (coords dr ev.x ev.y ≠ dr.mousepos ∧ oob dr (coords dr ev.x ev.y) = false)) ∧
    ((pollMouseMotionEvent dr ev m).2.isSome = true →
      pollMouseMotionEvent dr ev m =
        ({ dr with mousepos := coords dr ev.x ev.y },
         some ⟨MouseAction.move, coords dr ev.x ev.y, m⟩)) ∧
    ((pollMouseMotionEvent dr ev m).2 = none →
      (pollMouseMotionEvent dr ev m).1 = dr) ∧
    ((pollMouseMotionEvent (pollMouseMotionEvent dr ev m).1 ev m).2 = none) ∧
    ((pollMouseButtonEvent dr ev2 m).1.mousepos =
      match (pollMouseButtonEvent dr ev2 m).2 with
      | some mg => mg.p
      | none => dr.mousepos) := by
  obtain ⟨x, y⟩ := ev
  refine ⟨?_, ?_, ?_, ?_, ?_⟩
  · by_cases hp : coords dr x y = dr.mousepos
    · simp [pollMouseMotionEvent, hp]
    · by_cases ho : oob dr (coords dr x y)
      · simp [pollMouseMotionEvent, hp, ho]
      · simp [pollMouseMotionEvent, hp, ho]
  · intro hs
    by_cases hp : coords dr x y = dr.mousepos
    · simp [pollMouseMotionEvent, hp] at hs
    · by_cases ho : oob dr (coords dr x y)
      · simp [pollMouseMotionEvent, hp, ho] at hs
      · simp [pollMouseMotionEvent, hp, ho]
  · intro hn
    by_cases hp : coords dr x y = dr.mousepos
    · simp [pollMouseMotionEvent, hp]
    · by_cases ho : oob dr (coords dr x y)
      · simp [pollMouseMotionEvent, hp, ho]
      · simp [pollMouseMotionEvent, hp, ho] at hn
  · by_cases hp : coords dr x y = dr.mousepos
    · simp [pollMouseMotionEvent, hp]
    · by_cases ho : oob dr (coords dr x y)
      · simp [pollMouseMotionEvent, hp, ho]
      · simp [pollMouseMotionEvent, hp, ho, coords_update_mousepos, oob_update_mousepos]
  · obtain ⟨b, ty, x2, y2⟩ := ev2
    cases hb : buttonAction b with
    | none => simp [pollMouseButtonEvent, hb]
    | some a =>
      cases ty with
      | down =>
        by_cases hdrag : dr.mousedrag = none
        · by_cases ho : oob dr (coords dr x2 y2)
          · simp [pollMouseButtonEvent, hb, hdrag, ho]
          · simp [pollMouseButtonEvent, hb, hdrag, ho]
        · simp [pollMouseButtonEvent, hb, hdrag]
      | up =>
        by_cases hdrag : dr.mousedrag = some a
        · simp [pollMouseButtonEvent, hb, hdrag]
        · simp [pollMouseButtonEvent, hb, hdrag]

/-- Witness for C7: at the concrete driver, a motion to pixel (50, 50)
emits a move message to cell (3, 3) and records it; a second identical
motion event emits nothing. -/
theorem c7_motion_dedup_witness :
    (pollMouseMotionEvent drA ⟨50, 50⟩ 0).2.isSome = true ∧
    (pollMouseMotionEvent drA ⟨50, 50⟩ 0).1.mousepos = ⟨3, 3⟩ ∧
    (pollMouseMotionEvent drA ⟨50, 50⟩ 0).2 = some ⟨MouseAction.move, ⟨3, 3⟩, 0⟩ ∧
    (pollMouseMotionEvent (pollMouseMotionEvent drA ⟨50, 50⟩ 0).1 ⟨50, 50⟩ 0).2 = none := by
  have h := (c7_motion_dedup drA ⟨50, 50⟩ ⟨Button.left, BtnType.down, 0, 0⟩ 0).2.1
    (by decide)
  refine ⟨by decide, ?_, ?_,
    (c7_motion_dedup drA ⟨50, 50⟩ ⟨Button.left, BtnType.down, 0, 0⟩ 0).2.2.2.1⟩ <;>
    rw [h] <;> decide

/-- Appending a fresh binding to a cache that misses a cell makes lookup
of that cell find the new binding. -/
theorem findTex_append_self (l : List (Cell × Nat)) (c : Cell) (t : Nat)
    (h : findTex l c = none) : findTex (l ++ [(c, t)]) c = some t := by
  induction l with
  | nil => simp [findTex]
  | cons e rest ih =>
    by_cases he : e.1 = c
    · rw [findTex, if_pos he] at h
      exact absurd h (by simp)
    · rw [findTex, if_neg he] at h
      rw [List.cons_append, findTex, if_neg he]
      exact ih h

/-- An initialized driver whose tile manager never yields an image. -/
def drNil : Driver :=
  { mkZeroDriver tmNil with
    width := 4, height := 4, tw := 8, th := 8, texturesNil := false,
    init := true, mousedrag := none, rendererAlive := true,
    windowAlive := true, sdlAlive := true }

/-- The cell used by the cache fixtures. -/
def cellA : Cell := ⟨0, 0⟩

/-- C5, counterexample: when the tile manager yields no image for a cell,
nothing is cached, so two consecutive draw (get-or-create) calls for that
same cell with no intervening clear invoke `GetImage` twice, not exactly
once as the claim states. -/
theorem c5_cache_counterexample :
    ((draw drNil cellA 0 0).2 ++
        (draw (draw drNil cellA 0 0).1 cellA 0 0).2).count (Ev.getImage cellA) = 2 ∧
    (2 : Nat) ≠ 1 := by
  decide

/-- C5, amended: for a cell not already cached for which the provider
yields an image, two consecutive draw (get-or-create) calls with no
intervening clear blit the same fresh texture handle and invoke the
provider `GetImage` method exactly once (on the first call only). -/
theorem c5_cache_idempotent (dr : Driver) (c : Cell) (x y x2 y2 : Int) (img : Img)
    (hmiss : findTex dr.textures c = none)
    (himg : dr.tm.getImage c = some img) :
    (draw dr c x y).2 = [Ev.getImage c, Ev.createTexture dr.nextTex,
      Ev.copy dr.nextTex (x * dr.tw) (y * dr.th) dr.tw dr.th] ∧
    findTex (draw dr c x y).1.textures c = some dr.nextTex ∧
    (draw (draw dr c x y).1 c x2 y2).1 = (draw dr c x y).1 ∧
    (draw (draw dr c x y).1 c x2 y2).2 =
      [Ev.copy dr.nextTex (x2 * dr.tw) (y2 * dr.th) dr.tw dr.th] ∧
    ((draw dr c x y).2 ++
        (draw (draw dr c x y).1 c x2 y2).2).count (Ev.getImage c) = 1 := by
  have h1 : draw dr c x y =
      ({ dr with textures := dr.textures ++ [(c, dr.nextTex)],
                 nextTex := dr.nextTex + 1 },
       [Ev.getImage c, Ev.createTexture dr.nextTex,
        Ev.copy dr.nextTex (x * dr.tw) (y * dr.th) dr.tw dr.th]) := by
    unfold draw
    rw [hmiss, himg]
  have hf : findTex (dr.textures ++ [(c, dr.nextTex)]) c = some dr.nextTex :=
    findTex_append_self dr.textures c dr.nextTex hmiss
  have h2 : draw (draw dr c x y).1 c x2 y2 =
      ((draw dr c x y).1,
       [Ev.copy dr.nextTex (x2 * dr.tw) (y2 * dr.th) dr.tw dr.th]) := by
    rw [h1]
    unfold draw
    dsimp only
    rw [hf]
  refine ⟨by rw [h1], by rw [h1]; exact hf, by rw [h2], by rw [h2], ?_⟩
  rw [h2, h1]
  simp [List.count_cons, List.count_nil]

/-- Witness for C5 at an empty-cache driver whose provider yields image 7
for every cell. -/
theorem c5_cache_idempotent_witness :
    findTex drA.textures cellA = none ∧
    drA.tm.getImage cellA = some 7 ∧
    findTex (draw drA cellA 1 2).1.textures cellA = some drA.nextTex ∧
    (draw (draw drA cellA 1 2).1 cellA 1 2).2 =
      [Ev.copy drA.nextTex (1 * drA.tw) (2 * drA.th) drA.tw drA.th] := by
  have h := c5_cache_idempotent drA cellA 1 2 1 2 7 rfl rfl
  exact ⟨rfl, rfl, h.2.1, h.2.2.2.1⟩

/-- C6: `ClearCache` destroys every stored texture and empties the cache,
so a draw (get-or-create) call for any cell after a clear misses the cache
and invokes the provider `GetImage` method again (exactly once in that call). -/
theorem c6_clear_cache (dr : Driver) (c : Cell) (x y : Int) :
    (ClearCache dr).1.textures = [] ∧
    (ClearCache dr).2 = dr.textures.map (fun e => Ev.destroyTexture e.2) ∧
    (∀ e, e ∈ dr.textures → Ev.destroyTexture e.2 ∈ (ClearCache dr).2) ∧
    (draw (ClearCache dr).1 c x y).2.count (Ev.getImage c) = 1 := by
  refine ⟨rfl, rfl, ?_, ?_⟩
  · intro e he
    exact List.mem_map_of_mem _ he
  · cases himg : dr.tm.getImage c with
    | none =>
      simp [draw, ClearCache, findTex, himg, List.count_cons, List.count_nil]
    | some i =>
      simp [draw, ClearCache, findTex, himg, List.count_cons, List.count_nil]

/-- Witness for C6 at a driver holding one cached texture: the clear
destroys it and a subsequent draw of the same cell asks the provider
again. -/
theorem c6_clear_cache_witness :
    (ClearCache { drA with textures := [(cellA, 5)] }).1.textures = [] ∧
    (ClearCache { drA with textures := [(cellA, 5)] }).2 = [Ev.destroyTexture 5] ∧
    (draw (ClearCache { drA with textures := [(cellA, 5)] }).1 cellA 0 0).2.count
      (Ev.getImage cellA) = 1 := by
  have h := c6_clear_cache { drA with textures := [(cellA, 5)] } cellA 0 0
  exact ⟨h.1, h.2.1, h.2.2.2⟩

/-- Model of `Driver.draw` with the nil-ness of the texture map made
explicit: reading `dr.textures[cell]` on a nil map merely misses, but the
store `dr.textures[cell] = tx` on a cache miss with an image present
panics when the map is nil (Go run-time behavior of assignment into a nil
map); the panic is modelled as `none`.  On every state whose map is
non-nil this agrees with `draw` (`drawChecked_eq_draw`). -/
def drawChecked (dr : Driver) (cell : Cell) (x y : Int) :
    Option (Driver × List Ev) :=
  match findTex dr.textures cell with
  | some tx =>
    some (dr, [Ev.copy tx (x * dr.tw) (y * dr.th) dr.tw dr.th])
  | none =>
    match dr.tm.getImage cell with
    | none => some (dr, [Ev.getImage cell])
    | some _ =>
      let tx := dr.nextTex
      if dr.texturesNil then none
      else
        some ({ dr with textures := dr.textures ++ [(cell, tx)],
                        nextTex := tx + 1 },
          [Ev.getImage cell, Ev.createTexture tx,
           Ev.copy tx (x * dr.tw) (y * dr.th) dr.tw dr.th])

/-- Draw a list of cells with `drawChecked`; a panic aborts the loop
(unwinding), so later cells are not drawn. -/
def drawCellsChecked : List (Point × Cell) → Driver → Option (Driver × List Ev)
  | [], dr => some (dr, [])
  | fc :: rest, dr =>
    match drawChecked dr fc.2 fc.1.x fc.1.y with
    | none => none
    | some r1 =>
      match drawCellsChecked rest r1.1 with
      | none => none
      | some r2 => some (r2.1, r1.2 ++ r2.2)

/-- Model of `Driver.Flush` over `drawChecked`: identical to `Flush`
except that a nil-map store panic during drawing aborts the flush
(unwinding before `renderer.Present`), modelled as `none`. -/
def FlushChecked (dr : Driver) (frame : Frame) : Option (Driver × List Ev) :=
  let r1 := drainList dr.actions { dr with actions := [] }
  let r2 :=
    if frame.width ≠ r1.1.width ∨ frame.height ≠ r1.1.height then
      resizeWindow { r1.1 with width := frame.width, height := frame.height }
    else
      (r1.1, [])
  match drawCellsChecked frame.cells r2.1 with
  | none => none
  | some r3 => some (r3.1, r1.2 ++ r2.2 ++ r3.2 ++ [Ev.present])

/-- On any state whose texture map is non-nil, the nil-aware draw model
agrees with `draw`: the panic case is confined to nil-map states. -/
theorem drawChecked_eq_draw (dr : Driver) (h : dr.texturesNil = false)
    (c : Cell) (x y : Int) :
    drawChecked dr c x y = some (draw dr c x y) := by
  cases hf : findTex dr.textures c <;> cases hg : dr.tm.getImage c <;>
    simp [drawChecked, draw, hf, hg, h]

/-- Fixture `drA` with the keep-alive flag set and one cached texture. -/
def drK : Driver := { drA with noQuit := true, textures := [(cellA, 5)] }

/-- C9, counterexample: keep-alive `Close` runs `dr.textures = nil`, so
the resulting driver is not able to flush again as the claim states: a
flush of a frame containing a cell the provider has an image for panics at
the nil-map texture store (until Init re-creates the map), while the same
flush on the still-open driver succeeds.  Concretely, after `Close drK`
the checked flush of a one-cell frame is `none` (panic) although the
driver is still in the initialized state. -/
theorem c9_close_counterexample :
    (Close drK).1.init = true ∧
    (Close drK).1.texturesNil = true ∧
    drK.tm.getImage cellA = some 7 ∧
    (FlushChecked (Close drK).1 ⟨10, 8, [(⟨0, 0⟩, cellA)]⟩).isNone = true ∧
    (FlushChecked drA ⟨10, 8, [(⟨0, 0⟩, cellA)]⟩).isSome = true := by
  decide

/-- C9, amended: on an initialized driver with the keep-alive flag set,
`Close` clears the texture cache (destroying each stored texture and
emitting no teardown of renderer, window or SDL), consumes the flag and
leaves the driver in the initialized state, but sets the texture map to
nil, so the driver is able to flush again only once Init has re-created
the map: before that, any draw of an uncached cell whose image the
provider supplies panics at the nil-map store.  A second `Close`, now with
the flag unset, destroys the renderer, the window and the SDL subsystem
and de-initializes the driver; and `Close` on a non-initialized driver (as
after a full teardown) is a no-op, making a repeated close a no-op the
second time. -/
theorem c9_close_keep_alive (dr : Driver) (h1 : dr.init = true)
    (h2 : dr.noQuit = true) :
    (Close dr).1.textures = [] ∧
    (Close dr).1.texturesNil = true ∧
    (Close dr).2 = dr.textures.map (fun e => Ev.destroyTexture e.2) ∧
    (Close dr).1.rendererAlive = dr.rendererAlive ∧
    (Close dr).1.windowAlive = dr.windowAlive ∧
    (Close dr).1.sdlAlive = dr.sdlAlive ∧
    (Close dr).1.init = true ∧
    (Close dr).1.noQuit = false ∧
    (∀ c x y img, dr.tm.getImage c = some img →
      drawChecked (Close dr).1 c x y = none) ∧
    (Close (Close dr).1).1.rendererAlive = false ∧
    (Close (Close dr).1).1.windowAlive = false ∧
    (Close (Close dr).1).1.sdlAlive = false ∧
    (Close (Close dr).1).1.init = false ∧
    (Close (Close dr).1).1.noQuit = false ∧
    (∀ d : Driver, d.init = false → Close d = (d, [])) := by
  have hc : Close dr =
      ({ dr with textures := [], texturesNil := true, noQuit := false },
       dr.textures.map (fun e => Ev.destroyTexture e.2)) := by
    unfold Close ClearCache
    rw [h1]
    dsimp only
    rw [h2]
    simp
  have hc2 : (Close (Close dr).1).1.rendererAlive = false ∧
      (Close (Close dr).1).1.windowAlive = false ∧
      (Close (Close dr).1).1.sdlAlive = false ∧
      (Close (Close dr).1).1.init = false ∧
      (Close (Close dr).1).1.noQuit = false := by
    rw [hc]
    unfold Close ClearCache
    simp [h1]
  have hpanic : ∀ c x y img, dr.tm.getImage c = some img →
      drawChecked (Close dr).1 c x y = none := by
    intro c x y img himg
    rw [hc]
    simp [drawChecked, findTex, himg]
  refine ⟨by rw [hc], by rw [hc], by rw [hc], by rw [hc], by rw [hc],
    by rw [hc], by rw [hc]; exact h1, by rw [hc], hpanic,
    hc2.1, hc2.2.1, hc2.2.2.1, hc2.2.2.2.1, hc2.2.2.2.2, ?_⟩
  intro d hd
  unfold Close
  rw [hd]
  simp

/-- Witness for C9 at the concrete initialized keep-alive driver `drK`
holding one cached texture: the close destroys it, keeps the window alive
and the initialized flag, makes the map nil so a checked draw of a fresh
cell panics, and the second close destroys the window. -/
theorem c9_close_keep_alive_witness :
    (drK : Driver).init = true ∧
    (drK : Driver).noQuit = true ∧
    drK.tm.getImage cellA = some 7 ∧
    (Close drK).2 = [Ev.destroyTexture 5] ∧
    (Close drK).1.windowAlive = true ∧
    (Close drK).1.init = true ∧
    (Close drK).1.texturesNil = true ∧
    drawChecked (Close drK).1 cellA 0 0 = none ∧
    (Close (Close drK).1).1.windowAlive = false := by
  have h := c9_close_keep_alive drK rfl rfl
  exact ⟨rfl, rfl, rfl, h.2.2.1, h.2.2.2.2.1, h.2.2.2.2.2.2.1, h.2.1,
    h.2.2.2.2.2.2.2.2.1 cellA 0 0 7 rfl, h.2.2.2.2.2.2.2.2.2.2.1⟩

/-- An uninitialized driver (as returned by `NewDriver`) used to observe
the pre-init dispatch of configuration calls. -/
def drU : Driver :=
  { mkZeroDriver tmA with width := 2, height := 2, tw := 3, th := 3 }

/-- C8, counterexample: on a not-yet-initialized driver, `SetScale` does
not execute the deferred work immediately: it performs no native call and
leaves the window size untouched, whereas running the deferred action
performs the renderer scale and window resize calls. -/
theorem c8_setscale_counterexample :
    (SetScale drU 2 2).2 = [] ∧
    (runAction (ActionK.setScale 2 2) drU).2 =
      [Ev.rendererSetScale 2 2, Ev.windowSetSize 12 12] ∧
    (SetScale drU 2 2).1.windowW = drU.windowW ∧
    (runAction (ActionK.setScale 2 2) drU).1.windowW ≠ drU.windowW := by
  refine ⟨by decide, by with_unfolding_all decide, by decide,
    by with_unfolding_all decide⟩

/-- Function `setTMBody` never touches the action queue. -/
theorem setTMBody_actions (dr : Driver) (t : TileManager) :
    (setTMBody dr t).1.actions = dr.actions := by
  unfold setTMBody ClearCache setScale resizeWindow
  dsimp only
  split_ifs <;> rfl

/-- C8, amended: while the driver is not initialized, `SetTileManager`
executes its deferred work immediately and synchronously (and enqueues
nothing), while `SetScale` and `SetWindowTitle` only record the new scale
factors or title in the driver fields, executing no deferred work; once
initialized, each of the three calls enqueues its deferred action on the
4-slot queue, appending when there is room and silently dropping the
action when the queue is full. -/
theorem c8_config_dispatch (dr : Driver) (t : TileManager) (sx sy : ℚ)
    (s : String) :
    (dr.init = false →
      SetTileManager dr t = setTMBody dr t ∧
      (SetTileManager dr t).1.actions = dr.actions ∧
      SetScale dr sx sy = ({ dr with scaleX := sx, scaleY := sy }, []) ∧
      SetWindowTitle dr s = ({ dr with title := s }, [])) ∧
    (dr.init = true →
      SetTileManager dr t =
        ({ dr with actions := enqueue dr.actions (ActionK.setTM t) }, []) ∧
      SetScale dr sx sy =
        ({ dr with scaleX := sx, scaleY := sy,
                   actions := enqueue dr.actions (ActionK.setScale sx sy) }, []) ∧
      SetWindowTitle dr s =
        ({ dr with title := s,
                   actions := enqueue dr.actions (ActionK.setTitle s) }, [])) ∧
    (dr.actions.length < 4 →
      enqueue dr.actions (ActionK.setTM t) = dr.actions ++ [ActionK.setTM t]) ∧
    (4 ≤ dr.actions.length →
      enqueue dr.actions (ActionK.setTM t) = dr.actions) := by
  refine ⟨?_, ?_, ?_, ?_⟩
  · intro h
    refine ⟨?_, ?_, ?_, ?_⟩
    · simp [SetTileManager, h]
    · simp [SetTileManager, h, setTMBody_actions]
    · simp [SetScale, h]
    · simp [SetWindowTitle, h]
  · intro h
    refine ⟨?_, ?_, ?_⟩
    · simp [SetTileManager, h]
    · simp [SetScale, h]
    · simp [SetWindowTitle, h]
  · intro h
    simp [enqueue, h]
  · intro h
    simp [enqueue, not_lt.mpr h]

/-- Witness for C8: the uninitialized driver records a SetScale without
enqueueing or native work; the initialized driver enqueues; a full queue
drops the action. -/
theorem c8_config_dispatch_witness :
    SetScale drU 2 2 = ({ drU with scaleX := 2, scaleY := 2 }, []) ∧
    SetTileManager drA tmNil =
      ({ drA with actions := enqueue drA.actions (ActionK.setTM tmNil) }, []) ∧
    enqueue drA.actions (ActionK.setTM tmNil) = drA.actions ++ [ActionK.setTM tmNil] ∧
    (4 ≤ ({ drA with actions := [ActionK.setTitle "a", ActionK.setTitle "b",
        ActionK.setTitle "c", ActionK.setTitle "d"] } : Driver).actions.length ∧
      enqueue ({ drA with actions := [ActionK.setTitle "a", ActionK.setTitle "b",
        ActionK.setTitle "c", ActionK.setTitle "d"] } : Driver).actions
        (ActionK.setTM tmNil) =
        ({ drA with actions := [ActionK.setTitle "a", ActionK.setTitle "b",
          ActionK.setTitle "c", ActionK.setTitle "d"] } : Driver).actions) :=
  ⟨((c8_config_dispatch drU tmNil 2 2 "t").1 rfl).2.2.1,
   ((c8_config_dispatch drA tmNil 2 2 "t").2.1 rfl).1,
   (c8_config_dispatch drA tmNil 2 2 "t").2.2.1 (by decide),
   by decide,
   (c8_config_dispatch { drA with actions := [ActionK.setTitle "a",
      ActionK.setTitle "b", ActionK.setTitle "c", ActionK.setTitle "d"] }
     tmNil 2 2 "t").2.2.2 (by decide)⟩

/-- Running a queued action never touches the action queue or the logical
grid dimensions (queued actions only affect the tile manager, tile size,
scale, cache, window size, title and redraw flag). -/
theorem runAction_preserve (a : ActionK) (dr : Driver) :
    (runAction a dr).1.actions = dr.actions ∧
    (runAction a dr).1.width = dr.width ∧
    (runAction a dr).1.height = dr.height := by
  cases a with
  | setTM t =>
    show (setTMBody dr t).1.actions = dr.actions ∧ (setTMBody dr t).1.width = dr.width ∧
      (setTMBody dr t).1.height = dr.height
    unfold setTMBody ClearCache setScale resizeWindow
    dsimp only
    split_ifs <;> exact ⟨rfl, rfl, rfl⟩
  | setScale sx sy =>
    show (setScale dr sx sy).1.actions = dr.actions ∧
      (setScale dr sx sy).1.width = dr.width ∧
      (setScale dr sx sy).1.height = dr.height
    unfold setScale resizeWindow
    dsimp only
    split_ifs <;> exact ⟨rfl, rfl, rfl⟩
  | setTitle s => exact ⟨rfl, rfl, rfl⟩

/-- Draining a queue of actions preserves the action queue field and the
logical grid dimensions. -/
theorem drainList_preserve (l : List ActionK) (dr : Driver) :
    (drainList l dr).1.actions = dr.actions ∧
    (drainList l dr).1.width = dr.width ∧
    (drainList l dr).1.height = dr.height := by
  induction l generalizing dr with
  | nil => exact ⟨rfl, rfl, rfl⟩
  | cons a rest ih =>
    have h := runAction_preserve a dr
    have h2 := ih (runAction a dr).1
    exact ⟨h2.1.trans h.1, h2.2.1.trans h.2.1, h2.2.2.trans h.2.2⟩

/-- Function `resizeWindow` never touches the action queue. -/
theorem resizeWindow_actions (dr : Driver) :
    (resizeWindow dr).1.actions = dr.actions := by
  unfold resizeWindow
  dsimp only
  split_ifs <;> rfl

/-- Function `resizeWindow` always performs exactly one native window-resize call. -/
theorem resizeWindow_trace_ne_nil (dr : Driver) : (resizeWindow dr).2 ≠ [] := by
  unfold resizeWindow
  dsimp only
  split_ifs <;> simp

/-- Function `draw` never touches the action queue. -/
theorem draw_actions (dr : Driver) (c : Cell) (x y : Int) :
    (draw dr c x y).1.actions = dr.actions := by
  cases hf : findTex dr.textures c <;> cases hg : dr.tm.getImage c <;>
    simp [draw, hf, hg]

/-- Drawing a list of cells never touches the action queue. -/
theorem drawCells_actions (l : List (Point × Cell)) (dr : Driver) :
    (drawCells l dr).1.actions = dr.actions := by
  induction l generalizing dr with
  | nil => rfl
  | cons fc rest ih =>
    exact (ih (draw dr fc.2 fc.1.x fc.1.y).1).trans (draw_actions dr fc.2 fc.1.x fc.1.y)

/-- The resize phase of a flush, as the claim states it: performed exactly
when the declared frame dimensions differ from the current driver
(pre-flush) dimensions, on the state left by draining the action queue. -/
def flushResizeStep (dr : Driver) (frame : Frame) : Driver × List Ev :=
  if frame.width ≠ dr.width ∨ frame.height ≠ dr.height then
    resizeWindow { (drainList dr.actions { dr with actions := [] }).1 with
      width := frame.width, height := frame.height }
  else
    ((drainList dr.actions { dr with actions := [] }).1, [])

/-- C4: a flush fully drains the action queue in FIFO order first, then
resizes the window exactly when the declared frame width or height
differs from the current driver dimensions, then draws the frame cell
entries in order, and presents last: its trace is the concatenation of the
drain trace, the resize trace, the per-cell draw traces and the final
present, and the resize trace is non-empty exactly when the dimensions
differ.  (Queued actions never change the grid dimensions, so comparing
against the pre-flush dimensions is the same check the code performs after
draining.) -/
theorem c4_flush_order (dr : Driver) (frame : Frame) :
    (Flush dr frame).1.actions = [] ∧
    (Flush dr frame).2 =
      (drainList dr.actions { dr with actions := [] }).2 ++
        (flushResizeStep dr frame).2 ++
        (drawCells frame.cells (flushResizeStep dr frame).1).2 ++ [Ev.present] ∧
    ((flushResizeStep dr frame).2 ≠ [] ↔
      (frame.width ≠ dr.width ∨ frame.height ≠ dr.height)) := by
  have hpre := drainList_preserve dr.actions { dr with actions := [] }
  have key : Flush dr frame =
      ((drawCells frame.cells (flushResizeStep dr frame).1).1,
       (drainList dr.actions { dr with actions := [] }).2 ++
         (flushResizeStep dr frame).2 ++
         (drawCells frame.cells (flushResizeStep dr frame).1).2 ++ [Ev.present]) := by
    unfold Flush flushResizeStep
    dsimp only
    rw [hpre.2.1, hpre.2.2]
  refine ⟨?_, by rw [key], ?_⟩
  · rw [key]
    dsimp only
    rw [drawCells_actions]
    unfold flushResizeStep
    split_ifs
    · rw [resizeWindow_actions]
      exact hpre.1
    · exact hpre.1
  · unfold flushResizeStep
    split_ifs with h
    · exact iff_of_true (resizeWindow_trace_ne_nil _) h
    · exact iff_of_false (fun hcontra => absurd rfl hcontra) h

end GruidSdl
